import Mathlib

/-!
Verification of the audio-normalization pipeline of the speech-to-text API
(src/speechtxt.js and the unnamed variant).  Samples decoded from WAV are
modelled as rationals (the JS floats), a decoded waveform as a `Wave`, and
the external `wav.decode` / `wavEncoder.encode` library collaborators as
codec function parameters over an abstract buffer type `β`.
-/

/-- A decoded waveform as produced by `wav.decode`: a sample rate and a list
of channels, each a list of samples. -/
structure Wave where
  sampleRate : Nat
  channelData : List (List ℚ)
deriving DecidableEq

/-- The averaged mono channel built in `convertToMonoBuffer`
(src/speechtxt.js lines 123-125): maps over the indices of channel 0 and
averages channel 0 with channel 1 at each index. -/
def monoMix (decoded : Wave) : List ℚ :=
  let c0 := decoded.channelData.getD 0 []
  let c1 := decoded.channelData.getD 1 []
  (List.range c0.length).map fun i => (c0.getD i 0 + c1.getD i 0) / 2

/-- `convertToMonoBuffer` (src/speechtxt.js lines 115-133): decode the input
buffer; if it has exactly one channel return the input buffer itself,
otherwise re-encode a single-channel wave holding the average of channels 0
and 1 at the original sample rate.  `decode` and `encode` are the external
`node-wav` / `wav-encoder` collaborators. -/
def convertToMonoBuffer {β : Type} (decode : β → Wave) (encode : Wave → β)
    (input : β) : β :=
  let decoded := decode input
  if decoded.channelData.length = 1 then
    input
  else
    encode { sampleRate := decoded.sampleRate, channelData := [monoMix decoded] }

/-- C3: for a buffer that decodes to exactly one channel, the downmixer
returns the input buffer itself, byte for byte, with no re-encoding. -/
theorem convertToMonoBuffer_mono_identity {β : Type} (decode : β → Wave)
    (encode : Wave → β) (input : β)
    (h : (decode input).channelData.length = 1) :
    convertToMonoBuffer decode encode input = input := by
  unfold convertToMonoBuffer
  simp [h]

/-- Witness for C3 at a concrete mono buffer (identity codec). -/
theorem convertToMonoBuffer_mono_identity_witness :
    convertToMonoBuffer (fun w : Wave => w) (fun w : Wave => w)
      (Wave.mk 16000 [[(1 : ℚ)/2, 0]]) = Wave.mk 16000 [[(1 : ℚ)/2, 0]] :=
  convertToMonoBuffer_mono_identity _ _ _ (by decide)

/-- C1: for a buffer that decodes to exactly two channels `l` and `r` of equal
length, the downmixer output decodes to a single-channel wave at the input
sample rate whose channel is `monoMix`, has exactly `l.length` samples, and
whose sample `i` is `(l[i] + r[i]) / 2`.  The codec round-trip hypothesis
models the spec round-trip property of encode/decode. -/
theorem convertToMonoBuffer_stereo_mean {β : Type} (decode : β → Wave)
    (encode : Wave → β) (hrt : ∀ w, decode (encode w) = w) (input : β)
    (l r : List ℚ) (hdec : (decode input).channelData = [l, r])
    (hlen : r.length = l.length) :
    decode (convertToMonoBuffer decode encode input)
        = Wave.mk (decode input).sampleRate [monoMix (decode input)]
      ∧ (monoMix (decode input)).length = l.length
      ∧ ∀ i, i < l.length →
          (monoMix (decode input)).getD i 0 = (l.getD i 0 + r.getD i 0) / 2 := by
  have h2 : (decode input).channelData.length = 2 := by rw [hdec]; rfl
  refine ⟨?_, ?_, ?_⟩
  · unfold convertToMonoBuffer
    simp [h2, hrt]
  · unfold monoMix
    simp [hdec]
  · intro i hi
    unfold monoMix
    simp only [hdec, List.getD_eq_getElem?_getD, List.getElem?_map,
      List.getElem?_range, List.getD]
    simp [hi]

/-- Witness for C1: the spec scenario, stereo at 16000 Hz with left
`[1, -1]` and right `[-1, 1]` (identity codec), yields the mono wave with
samples `[0, 0]`. -/
theorem convertToMonoBuffer_stereo_mean_witness :
    ((fun w : Wave => w) (convertToMonoBuffer (fun w : Wave => w)
          (fun w : Wave => w) (Wave.mk 16000 [[(1 : ℚ), -1], [-1, 1]]))
        = Wave.mk 16000 [monoMix (Wave.mk 16000 [[(1 : ℚ), -1], [-1, 1]])]
      ∧ (monoMix (Wave.mk 16000 [[(1 : ℚ), -1], [-1, 1]])).length
          = [(1 : ℚ), -1].length
      ∧ ∀ i, i < [(1 : ℚ), -1].length →
          (monoMix (Wave.mk 16000 [[(1 : ℚ), -1], [-1, 1]])).getD i 0
            = ([(1 : ℚ), -1].getD i 0 + [(-1 : ℚ), 1].getD i 0) / 2)
    ∧ monoMix (Wave.mk 16000 [[(1 : ℚ), -1], [-1, 1]]) = [0, 0] :=
  ⟨convertToMonoBuffer_stereo_mean (fun w : Wave => w) (fun w : Wave => w)
      (fun _ => rfl) _ [(1 : ℚ), -1] [(-1 : ℚ), 1] rfl rfl,
    by norm_num [monoMix, List.range, List.range.loop, List.getD]⟩

/-- C6: for a buffer that decodes to one or two channels, the downmixer
output decodes to a wave with the same sample rate as the input. -/
theorem convertToMonoBuffer_preserves_sampleRate {β : Type} (decode : β → Wave)
    (encode : Wave → β) (hrt : ∀ w, decode (encode w) = w) (input : β)
    (h : (decode input).channelData.length = 1
       ∨ (decode input).channelData.length = 2) :
    (decode (convertToMonoBuffer decode encode input)).sampleRate
      = (decode input).sampleRate := by
  unfold convertToMonoBuffer
  rcases h with h | h
  · simp [h]
  · simp [h, hrt]

/-- Witness for C6 at a concrete stereo buffer (identity codec). -/
theorem convertToMonoBuffer_preserves_sampleRate_witness :
    ((fun w : Wave => w) (convertToMonoBuffer (fun w : Wave => w)
        (fun w : Wave => w) (Wave.mk 44100 [[(1 : ℚ)/4], [0]]))).sampleRate
      = (Wave.mk 44100 [[(1 : ℚ)/4], [0]]).sampleRate :=
  convertToMonoBuffer_preserves_sampleRate (fun w : Wave => w)
    (fun w : Wave => w) (fun _ => rfl) _ (Or.inr (by decide))

/-- C8: if every sample of both channels of a two-channel wave lies in
`[-1, 1]`, then every sample of the averaged mono channel lies in `[-1, 1]`,
so no additional clamping is required before re-encoding. -/
theorem monoMix_in_range (sr : Nat) (l r : List ℚ)
    (hl : ∀ x ∈ l, -1 ≤ x ∧ x ≤ 1) (hr : ∀ x ∈ r, -1 ≤ x ∧ x ≤ 1) :
    ∀ y ∈ monoMix (Wave.mk sr [l, r]), -1 ≤ y ∧ y ≤ 1 := by
  intro y hy
  simp only [monoMix, List.getD, List.mem_map, List.mem_range,
    List.get?_cons_zero, List.get?_cons_succ, Option.getD_some] at hy
  obtain ⟨i, hi, hy⟩ := hy
  have h0 : -1 ≤ l.getD i 0 ∧ l.getD i 0 ≤ 1 := by
    have hmem : l.getD i 0 ∈ l := by
      rw [List.getD_eq_getElem l 0 hi]
      exact List.getElem_mem hi
    exact hl _ hmem
  have h1 : -1 ≤ r.getD i 0 ∧ r.getD i 0 ≤ 1 := by
    by_cases hir : i < r.length
    · have hmem : r.getD i 0 ∈ r := by
        rw [List.getD_eq_getElem r 0 hir]
        exact List.getElem_mem hir
      exact hr _ hmem
    · rw [List.getD_eq_default r 0 (Nat.le_of_not_lt hir)]
      exact ⟨by norm_num, by norm_num⟩
  constructor
  · rw [← hy]; simp only [List.getD] at h0 h1 ⊢; linarith [h0.1, h1.1]
  · rw [← hy]; simp only [List.getD] at h0 h1 ⊢; linarith [h0.2, h1.2]

/-- Witness for C8 at concrete in-range channels and the concrete mixed
sample `1` (the mean of `1` and `1`). -/
theorem monoMix_in_range_witness : -1 ≤ (1 : ℚ) ∧ (1 : ℚ) ≤ 1 :=
  monoMix_in_range 16000 [(1 : ℚ), -1] [(1 : ℚ), 1]
    (by intro x hx; fin_cases hx <;> norm_num)
    (by intro x hx; fin_cases hx <;> norm_num)
    1 (by norm_num [monoMix, List.range, List.range.loop, List.getD])

/-- C2 counterexample: on a three-channel buffer the downmixer does not fail
with `ChannelCountUnsupported`; it returns a mono buffer averaging channels
0 and 1 and silently ignoring channel 2 (samples `1, 0, 1` give `1/2`, not
the three-way mean `2/3`). -/
theorem convertToMonoBuffer_three_channels_no_error :
    convertToMonoBuffer (fun w : Wave => w) (fun w : Wave => w)
      (Wave.mk 16000 [[(1 : ℚ)], [0], [1]])
      = Wave.mk 16000 [[(1 : ℚ)/2]] := by
  norm_num [convertToMonoBuffer, monoMix, List.range, List.range.loop, List.getD]

/-- C2 amended: for any buffer whose decoded channel count differs from 1
(including 3 or more channels), the downmixer does not fail: it returns the
encoding of a single-channel wave averaging channels 0 and 1, discarding any
further channels. -/
theorem convertToMonoBuffer_multichannel_mixes_first_two {β : Type}
    (decode : β → Wave) (encode : Wave → β) (input : β)
    (h : (decode input).channelData.length ≠ 1) :
    convertToMonoBuffer decode encode input
      = encode (Wave.mk (decode input).sampleRate [monoMix (decode input)]) := by
  unfold convertToMonoBuffer
  simp [h]

/-- Witness for the amended C2 at a concrete four-channel buffer. -/
theorem convertToMonoBuffer_multichannel_mixes_first_two_witness :
    convertToMonoBuffer (fun w : Wave => w) (fun w : Wave => w)
        (Wave.mk 22050 [[(0 : ℚ), 1], [1, 0], [1, 1], [0, 0]])
      = (fun w : Wave => w)
          (Wave.mk (Wave.mk 22050 [[(0 : ℚ), 1], [1, 0], [1, 1], [0, 0]]).sampleRate
            [monoMix (Wave.mk 22050 [[(0 : ℚ), 1], [1, 0], [1, 1], [0, 0]])]) :=
  convertToMonoBuffer_multichannel_mixes_first_two _ _ _ (by decide)

/-- C7: the downmixer is idempotent on mono input: applying it twice to a
buffer that decodes to one channel equals applying it once. -/
theorem convertToMonoBuffer_idempotent_on_mono {β : Type} (decode : β → Wave)
    (encode : Wave → β) (input : β)
    (h : (decode input).channelData.length = 1) :
    convertToMonoBuffer decode encode (convertToMonoBuffer decode encode input)
      = convertToMonoBuffer decode encode input := by
  unfold convertToMonoBuffer
  simp [h]

/-- Witness for C7 at a concrete mono buffer (identity codec). -/
theorem convertToMonoBuffer_idempotent_on_mono_witness :
    convertToMonoBuffer (fun w : Wave => w) (fun w : Wave => w)
        (convertToMonoBuffer (fun w : Wave => w) (fun w : Wave => w)
          (Wave.mk 8000 [[(0 : ℚ)]]))
      = convertToMonoBuffer (fun w : Wave => w) (fun w : Wave => w)
          (Wave.mk 8000 [[(0 : ℚ)]]) :=
  convertToMonoBuffer_idempotent_on_mono _ _ _ (by decide)

/-!
Format Normalizer (`convertAudioToWavBuffer`, src/speechtxt.js lines
100-112).  The function writes the input buffer to `temp.wav`, shells out to
the external ffmpeg transcoder (which on success writes `output.wav`), and
returns the output path; any failure is rethrown as one fixed generic error
message.  The filesystem is modelled as an association list where a write
shadows earlier entries; ffmpeg is a function parameter mapping the input
bytes to converted bytes or to a failure cause.
-/

/-- Filesystem state: later writes shadow earlier entries. -/
abbrev FS := List (String × List Nat)

/-- `fs.writeFileSync`: record the new contents for a name. -/
def fsWrite (fs : FS) (name : String) (contents : List Nat) : FS :=
  (name, contents) :: fs

/-- Read a file: the most recently written contents for a name. -/
def fsRead : FS → String → Option (List Nat)
  | [], _ => none
  | (n, c) :: rest, name => if n = name then some c else fsRead rest name

/-- The single error message thrown by `convertAudioToWavBuffer` on any
failure (src/speechtxt.js line 110). -/
def convErrorMessage : String := "Error saat konversi audio ke WAV."

/-- `convertAudioToWavBuffer` (src/speechtxt.js lines 100-112): write the
input to `temp.wav`, invoke the external ffmpeg transcoder, and return the
path `output.wav`; every failure cause collapses to the one generic error.
No file is ever removed. -/
def convertAudioToWavBuffer (runFfmpeg : List Nat → Except String (List Nat))
    (inputBuffer : List Nat) (fs : FS) : FS × Except String String :=
  let fs1 := fsWrite fs "temp.wav" inputBuffer
  match runFfmpeg inputBuffer with
  | Except.ok outBytes => (fsWrite fs1 "output.wav" outBytes, Except.ok "output.wav")
  | Except.error _ => (fs1, Except.error convErrorMessage)

/-- C5 counterexample: two distinct failure causes (an unsupported input
codec and an I/O failure) produce the identical generic error, so the
normalizer does not fail with three distinct named error conditions. -/
theorem convertAudioToWav_single_generic_error :
    (convertAudioToWavBuffer (fun _ => Except.error "unsupported input codec")
        [0] []).2
      = (convertAudioToWavBuffer
          (fun _ => Except.error "io failure reading input") [0] []).2
    ∧ (convertAudioToWavBuffer (fun _ => Except.error "unsupported input codec")
        [0] []).2 = Except.error convErrorMessage :=
  ⟨rfl, rfl⟩

/-- C5 amended: whenever the external transcoder fails, for any cause, the
normalizer fails with the single generic error message
`Error saat konversi audio ke WAV.`. -/
theorem convertAudioToWav_error_is_generic
    (runFfmpeg : List Nat → Except String (List Nat)) (input : List Nat)
    (fs : FS) (e : String) (h : runFfmpeg input = Except.error e) :
    (convertAudioToWavBuffer runFfmpeg input fs).2
      = Except.error convErrorMessage := by
  unfold convertAudioToWavBuffer
  simp [h]

/-- Witness for the amended C5 at a concrete failing transcoder. -/
theorem convertAudioToWav_error_is_generic_witness :
    (convertAudioToWavBuffer (fun _ => Except.error "probe failure") [1] []).2
      = Except.error convErrorMessage :=
  convertAudioToWav_error_is_generic (fun _ => Except.error "probe failure")
    [1] [] "probe failure" rfl

/-- C9 counterexample: after a failure on an unrecognized codec header, the
temporary input file `temp.wav` is still present in the filesystem — the
failure exit path performs no cleanup. -/
theorem convertAudioToWav_temp_left_on_failure :
    fsRead (convertAudioToWavBuffer
        (fun _ => Except.error "unrecognized codec header") [7, 7] []).1
      "temp.wav" = some [7, 7] := rfl

/-- C9 amended: on every exit path, success or failure, the normalizer
leaves the temporary file `temp.wav` holding the input bytes behind; it
never cleans up its transient storage. -/
theorem convertAudioToWav_never_cleans_temp
    (runFfmpeg : List Nat → Except String (List Nat)) (input : List Nat)
    (fs : FS) :
    fsRead (convertAudioToWavBuffer runFfmpeg input fs).1 "temp.wav"
      = some input := by
  unfold convertAudioToWavBuffer fsWrite
  cases runFfmpeg input with
  | ok o => simp [fsRead]
  | error e => simp [fsRead]

/-!
HTTP upload handler (`app.post` on `/speechtotext`, src/unnamed/part_000
lines 160-199; the src/speechtxt.js handler at lines 170-204 has the same
control flow without the normalization stage).  The pipeline stages —
format normalization, downmixing, transcription, cloud storage — and the
database create are modelled as fallible function parameters; the handler
returns the new database, the HTTP status, and the trace of stages invoked.
-/

/-- The uploaded multipart file: multer filename plus contents. -/
structure UploadFile where
  filename : String
  contents : List Nat
deriving DecidableEq

/-- The multipart request fields; `none` models a missing field. -/
structure UploadRequest where
  email : Option String
  title : Option String
  file : Option UploadFile
deriving DecidableEq

/-- JS truthiness of a possibly missing string field: missing and empty
strings are falsy. -/
def truthyStr : Option String → Bool
  | none => false
  | some s => !s.isEmpty

/-- JS truthiness of `req.file`: any present file object is truthy. -/
def truthyFile : Option UploadFile → Bool
  | none => false
  | some _ => true

/-- A row of the `Speechtotext` table. -/
structure TranscriptionRecord where
  audioUrl : String
  text : String
  fileName : String
  createdByEmail : String
deriving DecidableEq

/-- The persisted record set of the `Speechtotext` table. -/
abbrev DB := List TranscriptionRecord

/-- The external calls a request can make, in pipeline order. -/
inductive PipelineCall
  | normalize
  | downmix
  | transcribe
  | save
  | dbCreate
deriving DecidableEq

/-- The POST `/speechtotext` handler: validate the fields (400 if any is
missing), then run normalization, downmixing, transcription, cloud save and
the database create strictly in order inside one try/catch; the first
failure aborts with 500 and nothing later runs.  Returns the database after
the request, the HTTP status, and the trace of stages invoked. -/
def handlePost (normalize : List Nat → Except String (List Nat))
    (downmix : List Nat → Except String (List Nat))
    (transcribe : List Nat → Except String String)
    (save : String → String → Except String String)
    (dbCreateOk : Bool) (req : UploadRequest) (db : DB) :
    DB × Nat × List PipelineCall :=
  if truthyStr req.email && truthyStr req.title && truthyFile req.file then
    match normalize (req.file.getD ⟨"", []⟩).contents with
    | Except.error _ => (db, 500, [PipelineCall.normalize])
    | Except.ok wavBytes =>
      match downmix wavBytes with
      | Except.error _ => (db, 500, [PipelineCall.normalize, PipelineCall.downmix])
      | Except.ok monoBytes =>
        match transcribe monoBytes with
        | Except.error _ =>
          (db, 500, [PipelineCall.normalize, PipelineCall.downmix,
            PipelineCall.transcribe])
        | Except.ok transcription =>
          match save transcription (req.file.getD ⟨"", []⟩).filename with
          | Except.error _ =>
            (db, 500, [PipelineCall.normalize, PipelineCall.downmix,
              PipelineCall.transcribe, PipelineCall.save])
          | Except.ok url =>
            if dbCreateOk then
              (db ++ [TranscriptionRecord.mk url transcription
                  (req.file.getD ⟨"", []⟩).filename (req.email.getD "")], 201,
                [PipelineCall.normalize, PipelineCall.downmix,
                  PipelineCall.transcribe, PipelineCall.save,
                  PipelineCall.dbCreate])
            else
              (db, 500, [PipelineCall.normalize, PipelineCall.downmix,
                PipelineCall.transcribe, PipelineCall.save,
                PipelineCall.dbCreate])
  else (db, 400, [])

/-- GET `/speechtotext/:email`: the rows whose `createdByEmail` equals the
path parameter (`Speechtotext.findAll`). -/
def getByEmail (db : DB) (email : String) : List TranscriptionRecord :=
  db.filter fun t => t.createdByEmail == email

/-- C4: whenever a request does not succeed (status is not 201) — any
pipeline stage failed or validation rejected it — the database is unchanged,
so the record set readable via GET `/speechtotext/:email` is unchanged for
every email; moreover transcription is only ever invoked after
normalization and downmixing both succeeded, so nothing is forwarded to the
transcription collaborator past an earlier failure. -/
theorem handlePost_failure_leaves_db_unchanged
    (normalize : List Nat → Except String (List Nat))
    (downmix : List Nat → Except String (List Nat))
    (transcribe : List Nat → Except String String)
    (save : String → String → Except String String)
    (dbCreateOk : Bool) (req : UploadRequest) (db db2 : DB) (status : Nat)
    (calls : List PipelineCall)
    (hres : handlePost normalize downmix transcribe save dbCreateOk req db
      = (db2, status, calls))
    (h : status ≠ 201) :
    db2 = db ∧ (∀ e, getByEmail db2 e = getByEmail db e)
      ∧ (PipelineCall.transcribe ∈ calls →
          ∃ w m, normalize (req.file.getD ⟨"", []⟩).contents = Except.ok w
            ∧ downmix w = Except.ok m) := by
  unfold handlePost at hres
  by_cases hv : (truthyStr req.email && truthyStr req.title
      && truthyFile req.file) = true
  · rw [if_pos hv] at hres
    cases hn : normalize (req.file.getD ⟨"", []⟩).contents with
    | error e1 =>
      rw [hn] at hres
      dsimp only at hres
      rw [Prod.mk.injEq, Prod.mk.injEq] at hres
      obtain ⟨rfl, rfl, rfl⟩ := hres
      exact ⟨rfl, fun e => rfl, fun hmem => absurd hmem (by decide)⟩
    | ok wavBytes =>
      rw [hn] at hres
      dsimp only at hres
      cases hd : downmix wavBytes with
      | error e2 =>
        rw [hd] at hres
        dsimp only at hres
        rw [Prod.mk.injEq, Prod.mk.injEq] at hres
        obtain ⟨rfl, rfl, rfl⟩ := hres
        exact ⟨rfl, fun e => rfl, fun hmem => absurd hmem (by decide)⟩
      | ok monoBytes =>
        rw [hd] at hres
        dsimp only at hres
        cases ht : transcribe monoBytes with
        | error e3 =>
          rw [ht] at hres
          dsimp only at hres
          rw [Prod.mk.injEq, Prod.mk.injEq] at hres
          obtain ⟨rfl, rfl, rfl⟩ := hres
          exact ⟨rfl, fun e => rfl, fun _ => ⟨wavBytes, monoBytes, rfl, hd⟩⟩
        | ok transcription =>
          rw [ht] at hres
          dsimp only at hres
          cases hs : save transcription (req.file.getD ⟨"", []⟩).filename with
          | error e4 =>
            rw [hs] at hres
            dsimp only at hres
            rw [Prod.mk.injEq, Prod.mk.injEq] at hres
            obtain ⟨rfl, rfl, rfl⟩ := hres
            exact ⟨rfl, fun e => rfl, fun _ => ⟨wavBytes, monoBytes, rfl, hd⟩⟩
          | ok url =>
            rw [hs] at hres
            dsimp only at hres
            cases dbCreateOk with
            | true =>
              rw [if_pos rfl] at hres
              rw [Prod.mk.injEq, Prod.mk.injEq] at hres
              obtain ⟨rfl, rfl, rfl⟩ := hres
              exact absurd rfl h
            | false =>
              rw [if_neg Bool.false_ne_true] at hres
              rw [Prod.mk.injEq, Prod.mk.injEq] at hres
              obtain ⟨rfl, rfl, rfl⟩ := hres
              exact ⟨rfl, fun e => rfl, fun _ => ⟨wavBytes, monoBytes, rfl, hd⟩⟩
  · rw [if_neg hv] at hres
    rw [Prod.mk.injEq, Prod.mk.injEq] at hres
    obtain ⟨rfl, rfl, rfl⟩ := hres
    exact ⟨rfl, fun e => rfl, fun hmem => absurd hmem (by decide)⟩

/-- Witness for C4: a concrete request whose downmix stage fails leaves a
concrete one-row database unchanged. -/
theorem handlePost_failure_leaves_db_unchanged_witness :
    [TranscriptionRecord.mk "u" "x" "f" "a@b"]
        = [TranscriptionRecord.mk "u" "x" "f" "a@b"]
      ∧ (∀ e, getByEmail [TranscriptionRecord.mk "u" "x" "f" "a@b"] e
          = getByEmail [TranscriptionRecord.mk "u" "x" "f" "a@b"] e)
      ∧ (PipelineCall.transcribe
            ∈ [PipelineCall.normalize, PipelineCall.downmix] →
          ∃ w m, (Except.ok [1] : Except String (List Nat)) = Except.ok w
            ∧ (Except.error "bad wav" : Except String (List Nat))
                = Except.ok m) :=
  handlePost_failure_leaves_db_unchanged
    (fun b => Except.ok b)
    (fun _ => (Except.error "bad wav" : Except String (List Nat)))
    (fun _ => Except.ok "txt") (fun _ _ => Except.ok "url") true
    (UploadRequest.mk (some "a@b") (some "t")
      (some (UploadFile.mk "f.wav" [1])))
    [TranscriptionRecord.mk "u" "x" "f" "a@b"]
    [TranscriptionRecord.mk "u" "x" "f" "a@b"] 500
    [PipelineCall.normalize, PipelineCall.downmix] (by rfl) (by decide)

/-- C10: a request with a missing email, title or file is answered with
status 400, no pipeline stage is invoked, and the database is unchanged. -/
theorem handlePost_missing_field_rejects
    (normalize : List Nat → Except String (List Nat))
    (downmix : List Nat → Except String (List Nat))
    (transcribe : List Nat → Except String String)
    (save : String → String → Except String String)
    (dbCreateOk : Bool) (req : UploadRequest) (db : DB)
    (h : req.email = none ∨ req.title = none ∨ req.file = none) :
    handlePost normalize downmix transcribe save dbCreateOk req db
      = (db, 400, []) := by
  unfold handlePost
  have hv : (truthyStr req.email && truthyStr req.title
      && truthyFile req.file) = false := by
    rcases h with h | h | h <;> simp [h, truthyStr, truthyFile]
  simp [hv]

/-- Witness for C10: a concrete request with a missing email field. -/
theorem handlePost_missing_field_rejects_witness :
    handlePost (fun b => Except.ok b) (fun b => Except.ok b)
        (fun _ => Except.ok "txt") (fun _ _ => Except.ok "url") true
        (UploadRequest.mk none (some "t") (some (UploadFile.mk "a.wav" [1])))
        []
      = ([], 400, []) :=
  handlePost_missing_field_rejects _ _ _ _ _ _ _ (Or.inl rfl)
